import Mathlib

/-!
Shallow embedding of the keno odds simulator (src/index.js).

The source computes exact binomial coefficients with BigInt arithmetic,
derives hypergeometric probabilities, and aggregates them against a payout
table into expected value, house edge, RTP and "best odds to win" figures.
Probabilities and multipliers are modelled as exact rationals (ℚ); all
BigInt arithmetic is modelled as ℤ, and the `Number(bigint)` conversion on
the binomial result is modelled by `roundToDouble` (round to 53 significant
bits, ties to even).  JavaScript string formatting
(toLocaleString with en-US grouping and at most two fraction digits, and
toFixed(2)) is modelled by explicit digit-level functions; JavaScript's
division 1/0 = Infinity followed by toFixed is modelled by the branch it
provably takes (the string "Infinity").
-/

/-- Game constant: numbers in the pool (from src/index.js `TOTAL_NUMBERS`). -/
def TOTAL_NUMBERS : ℤ := 80

/-- Game constant: numbers drawn by the house (from src/index.js `NUMBERS_DRAWN`). -/
def NUMBERS_DRAWN : ℤ := 20

/-- Game constant: numbers not drawn (from src/index.js `NUMBERS_NOT_DRAWN`). -/
def NUMBERS_NOT_DRAWN : ℤ := TOTAL_NUMBERS - NUMBERS_DRAWN

/-- Loop of src/index.js `factorial`: result starts at 1 and is multiplied by
2, 3, …, n.  Structurally, `factLoop n = n!` as an integer. -/
def factLoop : ℕ → ℤ
  | 0 => 1
  | n + 1 => factLoop n * (n + 1)

/-- Embedding of src/index.js `factorial(n)`: returns 1 for n ≤ 1 (including
negative inputs), otherwise the product 2 × 3 × … × n computed in exact
(BigInt) arithmetic. -/
def factorial (n : ℤ) : ℤ :=
  if n ≤ 1 then 1 else factLoop n.toNat

/-- Loop of src/index.js `binomial`: the falling product
n × (n−1) × … × (n−k+1), i.e. the numerator accumulated over i = 0, …, k−1. -/
def fallingProduct (n : ℤ) : ℕ → ℤ
  | 0 => 1
  | k + 1 => fallingProduct n k * (n - k)

/-- Fuel-driven binary logarithm; the fuel argument only forces structural
termination, and `natLog2` supplies fuel n ≥ log₂ n. -/
def log2Fuel : ℕ → ℕ → ℕ
  | 0, _ => 0
  | fuel + 1, n => if 2 ≤ n then log2Fuel fuel (n / 2) + 1 else 0

/-- Floor of the base-2 logarithm, used to locate the leading bit of a
number when rounding it to a double. -/
def natLog2 (n : ℕ) : ℕ := log2Fuel n n

/-- Model of the JavaScript `Number(bigint)` conversion for nonnegative
values below the double overflow threshold: integers below 2^53 are
preserved; larger integers are rounded to 53 significant bits,
round-to-nearest with ties to even, as IEEE-754 binary64 requires. -/
def roundToDouble (m : ℕ) : ℕ :=
  if m < 2 ^ 53 then m
  else
    let e := natLog2 m - 52
    let q := m / 2 ^ e
    let r := m % 2 ^ e
    if r < 2 ^ (e - 1) then q * 2 ^ e
    else if 2 ^ (e - 1) < r then (q + 1) * 2 ^ e
    else if q % 2 = 0 then q * 2 ^ e
    else (q + 1) * 2 ^ e

/-- Embedding of src/index.js `binomial(n, k)`: 0 when k < 0 or k > n, 1 when
k = 0 or k = n, otherwise (after replacing k by min(k, n−k)) the falling
product divided by k! in exact BigInt arithmetic, with the result returned
through the `Number(...)` conversion (`roundToDouble`), which rounds values
at or above 2^53 to the nearest double.  The BigInt division truncates
toward zero, but both operands are nonnegative on every reachable path, so
plain integer division is the faithful model. -/
def binomial (n k : ℤ) : ℤ :=
  if k < 0 ∨ k > n then 0
  else if k = 0 ∨ k = n then 1
  else
    let k2 := if k > n - k then n - k else k
    (roundToDouble (fallingProduct n k2.toNat / factorial k2).toNat : ℤ)

/-- Embedding of src/index.js `calculateProbability(picks, hits)`:
hypergeometric probability C(20, hits) × C(60, picks−hits) / C(80, picks),
with the guard conditions returning 0.  The JavaScript Number division is
modelled as exact rational division. -/
def calculateProbability (picks hits : ℤ) : ℚ :=
  if hits > picks ∨ hits > NUMBERS_DRAWN ∨ picks - hits > NUMBERS_NOT_DRAWN then 0
  else
    let waysToHit := binomial NUMBERS_DRAWN hits
    let waysToMiss := binomial NUMBERS_NOT_DRAWN (picks - hits)
    let totalWays := binomial TOTAL_NUMBERS picks
    ((waysToHit * waysToMiss : ℤ) : ℚ) / ((totalWays : ℤ) : ℚ)

/-- Helper for en-US digit grouping: walking the digit characters from the
least significant end, a comma is inserted after every third digit.  The
first argument counts digits emitted since the last comma. -/
def addCommasRev : ℕ → List Char → List Char
  | _, [] => []
  | c, d :: ds =>
    if c = 3 then ',' :: d :: addCommasRev 1 ds else d :: addCommasRev (c + 1) ds

/-- Render a natural number with en-US thousands separators, as
`Number.prototype.toLocaleString('en-US')` does for the integer part. -/
def groupNat (n : ℕ) : String :=
  String.mk (addCommasRev 0 (Nat.repr n).data.reverse).reverse

/-- Model, for nonnegative arguments, of
`x.toLocaleString('en-US', \x7b maximumFractionDigits: 2 \x7d)`: round to two
fraction digits (half away from zero, the Intl default rounding for positive
values), group the integer part with commas, and drop trailing fraction
zeros. -/
def formatMaxFrac2 (q : ℚ) : String :=
  let s : ℤ := ⌊q * 100 + 1 / 2⌋
  let n : ℕ := s.toNat / 100
  let f : ℕ := s.toNat % 100
  if f = 0 then groupNat n
  else if f % 10 = 0 then groupNat n ++ "." ++ Nat.repr (f / 10)
  else if f < 10 then groupNat n ++ ".0" ++ Nat.repr f
  else groupNat n ++ "." ++ Nat.repr f

/-- Model, for nonnegative finite arguments, of `x.toFixed(2)`: exactly two
fraction digits, rounding half away from zero, no grouping. -/
def toFixed2 (q : ℚ) : String :=
  let s : ℤ := ⌊q * 100 + 1 / 2⌋
  let n : ℕ := s.toNat / 100
  let f : ℕ := s.toNat % 100
  Nat.repr n ++ "." ++ (if f < 10 then "0" ++ Nat.repr f else Nat.repr f)

/-- Embedding of src/index.js `probabilityToOdds(probability)`. -/
def probabilityToOdds (p : ℚ) : String :=
  if p = 0 then "impossible"
  else if p = 1 then "1 in 1"
  else "1 in " ++ formatMaxFrac2 (1 / p)

/-- Payout tables map picks and hits to an optional multiplier; an absent
entry models a missing key in the parsed CSV object. -/
def PayoutTable : Type := ℤ → ℤ → Option ℚ

/-- Embedding of the lookup `payouts[picks]?.[hits] || 0` used throughout
src/index.js `analyzeKeno`: an absent entry yields multiplier 0. -/
def lookupPayout (tbl : PayoutTable) (picks hits : ℤ) : ℚ :=
  (tbl picks hits).getD 0

/-- Embedding of the `totalEV` accumulation in src/index.js `analyzeKeno`
(both the per-pick loop and the summary loop): the sum over hits = 0..picks
of probability × payout multiplier. -/
def totalEV (tbl : PayoutTable) (picks : ℕ) : ℚ :=
  ((List.range (picks + 1)).map
    (fun hits : ℕ => calculateProbability picks hits * lookupPayout tbl picks hits)).sum

/-- Embedding of the `maxPayout` accumulation in src/index.js `analyzeKeno`:
starting from 0, keep the larger of the running maximum and each multiplier. -/
def maxPayout (tbl : PayoutTable) (picks : ℕ) : ℚ :=
  ((List.range (picks + 1)).map (fun hits : ℕ => lookupPayout tbl picks hits)).foldl
    (fun m p => if p > m then p else m) 0

/-- Embedding of the `bestWinOdds` accumulation in src/index.js `analyzeKeno`:
the sum of probabilities over hit counts whose multiplier is positive. -/
def combinedWinProbability (tbl : PayoutTable) (picks : ℕ) : ℚ :=
  ((List.range (picks + 1)).map
    (fun hits : ℕ =>
      if lookupPayout tbl picks hits > 0 then calculateProbability picks hits else 0)).sum

/-- Embedding of `const houseEdge = (1 - totalEV) * 100` in src/index.js. -/
def houseEdgePercent (tbl : PayoutTable) (picks : ℕ) : ℚ :=
  (1 - totalEV tbl picks) * 100

/-- Embedding of `const rtp = totalEV * 100` in src/index.js. -/
def rtpPercent (tbl : PayoutTable) (picks : ℕ) : ℚ :=
  totalEV tbl picks * 100

/-- Embedding of the summary string
`const winOddsStr = ` followed by `1 in` and `(1 / bestWinOdds).toFixed(2)`
in src/index.js.  When `bestWinOdds` is 0, JavaScript evaluates 1/0 to
Infinity and `Infinity.toFixed(2)` to the string "Infinity"; that branch is
modelled explicitly. -/
def winOddsStr (tbl : PayoutTable) (picks : ℕ) : String :=
  if combinedWinProbability tbl picks = 0 then "1 in Infinity"
  else "1 in " ++ toFixed2 (1 / combinedWinProbability tbl picks)

/-- Payout table with no entries at all (every key absent). -/
def payoutsEmpty : PayoutTable := fun _ _ => none

/-- Payout table of the spec's worked example: picks = 1 pays 3.8× on 1 hit
and has no other entries. -/
def payoutsPick1Pays38 : PayoutTable :=
  fun picks hits => if picks = 1 ∧ hits = 1 then some (19 / 5) else none

/-! ### Relating the embedded combinatorics to Mathlib's `Nat.factorial`,
`Nat.descFactorial` and `Nat.choose` -/

/-- The factorial loop computes the mathematical factorial. -/
lemma factLoop_eq (n : ℕ) : factLoop n = (Nat.factorial n : ℤ) := by
  induction n with
  | zero => rfl
  | succ n ih =>
    simp only [factLoop, ih, Nat.factorial_succ]
    push_cast
    ring

/-- The embedded `factorial` computes the mathematical factorial on
nonnegative inputs. -/
lemma factorial_eq (k : ℤ) (hk : 0 ≤ k) : factorial k = (Nat.factorial k.toNat : ℤ) := by
  by_cases h : k ≤ 1
  · rw [factorial, if_pos h]
    have hcase : k = 0 ∨ k = 1 := by omega
    rcases hcase with rfl | rfl <;> rfl
  · rw [factorial, if_neg h, factLoop_eq]

/-- The numerator loop of `binomial` computes the descending factorial. -/
lemma fallingProduct_eq (n : ℤ) (j : ℕ) (h : (j : ℤ) ≤ n) :
    fallingProduct n j = (Nat.descFactorial n.toNat j : ℤ) := by
  induction j with
  | zero => rfl
  | succ j ih =>
    have hj : (j : ℤ) ≤ n := by push_cast at h; omega
    have h1 : ((n.toNat - j : ℕ) : ℤ) = n - j := by omega
    simp only [fallingProduct, ih hj, Nat.descFactorial_succ, Nat.cast_mul, h1]
    ring

/-- The falling-product-over-factorial step of `binomial` computes the
mathematical binomial coefficient. -/
lemma binomial_div_eq (n m : ℤ) (h0 : 0 ≤ m) (h : m ≤ n) :
    fallingProduct n m.toNat / factorial m = (Nat.choose n.toNat m.toNat : ℤ) := by
  rw [fallingProduct_eq n m.toNat (by omega), factorial_eq m h0,
    Nat.choose_eq_descFactorial_div_factorial, Int.ofNat_ediv]

/-- Integers below 2^53 convert to a double unchanged. -/
lemma roundToDouble_eq_self (m : ℕ) (h : m < 2 ^ 53) : roundToDouble m = m := by
  rw [roundToDouble, if_pos h]

/-- For 0 ≤ k ≤ n the embedded `binomial` is exactly the double-rounding of
the mathematical binomial coefficient. -/
lemma binomial_eq_round_choose (n k : ℤ) (h0 : 0 ≤ k) (h1 : k ≤ n) :
    binomial n k = (roundToDouble (Nat.choose n.toNat k.toNat) : ℤ) := by
  rw [binomial, if_neg (by omega)]
  by_cases hz : k = 0 ∨ k = n
  · rw [if_pos hz]
    rcases hz with rfl | rfl
    · simp [roundToDouble_eq_self 1 (by norm_num)]
    · simp [Nat.choose_self, roundToDouble_eq_self 1 (by norm_num)]
  · rw [if_neg hz]
    push_neg at hz
    show ((roundToDouble (fallingProduct n (if k > n - k then n - k else k).toNat /
        factorial (if k > n - k then n - k else k)).toNat : ℕ) : ℤ) = _
    by_cases hk : k > n - k
    · rw [if_pos hk, binomial_div_eq n (n - k) (by omega) (by omega), Int.toNat_natCast]
      have h2 : (n - k).toNat = n.toNat - k.toNat := by omega
      rw [h2, Nat.choose_symm (by omega)]
    · rw [if_neg hk, binomial_div_eq n k h0 h1, Int.toNat_natCast]

/-- Below 2^53 the `Number(...)` conversion is lossless, so the embedded
`binomial` agrees exactly with Mathlib's `Nat.choose`. -/
lemma binomial_eq_choose (n k : ℤ) (h0 : 0 ≤ k) (h1 : k ≤ n)
    (hsmall : Nat.choose n.toNat k.toNat < 2 ^ 53) :
    binomial n k = (Nat.choose n.toNat k.toNat : ℤ) := by
  rw [binomial_eq_round_choose n k h0 h1, roundToDouble_eq_self _ hsmall]

/-- The coefficients C(20, x) for x ≤ 10 are far below 2^53. -/
lemma choose_small_20 (x : ℕ) (hx : x ≤ 10) : Nat.choose 20 x < 2 ^ 53 := by
  interval_cases x <;> (rw [Nat.choose_eq_descFactorial_div_factorial]; decide)

/-- The coefficients C(60, x) for x ≤ 10 are far below 2^53. -/
lemma choose_small_60 (x : ℕ) (hx : x ≤ 10) : Nat.choose 60 x < 2 ^ 53 := by
  interval_cases x <;> (rw [Nat.choose_eq_descFactorial_div_factorial]; decide)

/-- The coefficients C(80, x) for x ≤ 10 — up to C(80,10) ≈ 1.65·10¹² — are
below 2^53. -/
lemma choose_small_80 (x : ℕ) (hx : x ≤ 10) : Nat.choose 80 x < 2 ^ 53 := by
  interval_cases x <;> (rw [Nat.choose_eq_descFactorial_div_factorial]; decide)

/-! ### The probability engine versus the mathematical hypergeometric mass -/

/-- On the domain the program uses (0 ≤ hits ≤ picks ≤ 10), the embedded
probability is exactly the hypergeometric mass
C(20, hits) · C(60, picks−hits) / C(80, picks). -/
lemma calculateProbability_eq (picks hits : ℤ) (h0 : 0 ≤ hits) (h1 : hits ≤ picks)
    (h2 : picks ≤ 10) :
    calculateProbability picks hits =
      ((Nat.choose 20 hits.toNat * Nat.choose 60 (picks - hits).toNat : ℕ) : ℚ) /
        ((Nat.choose 80 picks.toNat : ℕ) : ℚ) := by
  rw [calculateProbability,
    if_neg (by simp only [NUMBERS_DRAWN, NUMBERS_NOT_DRAWN, TOTAL_NUMBERS]; omega)]
  show ((binomial 20 hits * binomial 60 (picks - hits) : ℤ) : ℚ) /
      ((binomial 80 picks : ℤ) : ℚ) = _
  rw [binomial_eq_choose 20 hits h0 (by omega) (choose_small_20 hits.toNat (by omega)),
    binomial_eq_choose 60 (picks - hits) (by omega) (by omega)
      (choose_small_60 (picks - hits).toNat (by omega)),
    binomial_eq_choose 80 picks (by omega) (by omega)
      (choose_small_80 picks.toNat (by omega))]
  push_cast
  ring

/-- Vandermonde: the numerators of the hypergeometric masses for a fixed pick
count sum to the total count C(80, picks). -/
lemma sum_choose_mul (p : ℕ) :
    ∑ h ∈ Finset.range (p + 1), Nat.choose 20 h * Nat.choose 60 (p - h) =
      Nat.choose 80 p := by
  have h80 : (80 : ℕ) = 20 + 60 := rfl
  rw [h80, Nat.add_choose_eq 20 60 p, Finset.Nat.sum_antidiagonal_eq_sum_range_succ_mk]

/-- A single hypergeometric numerator is at most the total count. -/
lemma choose_mul_le_choose (p h : ℕ) (hh : h ≤ p) :
    Nat.choose 20 h * Nat.choose 60 (p - h) ≤ Nat.choose 80 p := by
  rw [← sum_choose_mul p]
  exact Finset.single_le_sum (f := fun i => Nat.choose 20 i * Nat.choose 60 (p - i))
    (fun i _ => Nat.zero_le _) (Finset.mem_range.mpr (by omega))

/-- The embedded probability is nonnegative on the program's domain. -/
lemma calcProb_nonneg (picks hits : ℤ) (h0 : 0 ≤ hits) (h1 : hits ≤ picks)
    (h2 : picks ≤ 10) : 0 ≤ calculateProbability picks hits := by
  rw [calculateProbability_eq picks hits h0 h1 h2]
  positivity

/-- The embedded probability is at most one on the program's domain. -/
lemma calcProb_le_one (picks hits : ℤ) (h0 : 0 ≤ hits) (h1 : hits ≤ picks)
    (h2 : picks ≤ 10) : calculateProbability picks hits ≤ 1 := by
  rw [calculateProbability_eq picks hits h0 h1 h2]
  have hD : 0 < Nat.choose 80 picks.toNat := Nat.choose_pos (by omega)
  rw [div_le_one (by exact_mod_cast hD)]
  have hsub : (picks - hits).toNat = picks.toNat - hits.toNat := by omega
  rw [hsub]
  exact_mod_cast choose_mul_le_choose picks.toNat hits.toNat (by omega)

/-- Probability of 0 hits on 1 pick is exactly 60/80 = 3/4. -/
lemma calcProb_one_zero : calculateProbability 1 0 = 3 / 4 := by
  rw [calculateProbability_eq 1 0 (by norm_num) (by norm_num) (by norm_num)]
  norm_num [Nat.choose_one_right]

/-- Probability of 1 hit on 1 pick is exactly 20/80 = 1/4. -/
lemma calcProb_one_one : calculateProbability 1 1 = 1 / 4 := by
  rw [calculateProbability_eq 1 1 (by norm_num) (by norm_num) (by norm_num)]
  norm_num [Nat.choose_one_right]

/-- The hypergeometric masses for a fixed pick count sum to exactly 1. -/
lemma sum_calcProb (p : ℕ) (h2 : p ≤ 10) :
    ∑ hits ∈ Finset.range (p + 1), calculateProbability p hits = 1 := by
  have key : ∀ hits ∈ Finset.range (p + 1),
      calculateProbability p hits =
        ((Nat.choose 20 hits * Nat.choose 60 (p - hits) : ℕ) : ℚ) /
          ((Nat.choose 80 p : ℕ) : ℚ) := by
    intro hits hh
    rw [Finset.mem_range] at hh
    rw [calculateProbability_eq p hits (by positivity) (by exact_mod_cast by omega)
      (by exact_mod_cast h2)]
    have ha : ((p : ℤ)).toNat = p := Int.toNat_natCast p
    have hb : ((hits : ℤ)).toNat = hits := Int.toNat_natCast hits
    have hc : ((p : ℤ) - (hits : ℤ)).toNat = p - hits := by omega
    rw [ha, hb, hc]
  rw [Finset.sum_congr rfl key, ← Finset.sum_div, ← Nat.cast_sum, sum_choose_mul p]
  have hD : 0 < Nat.choose 80 p := Nat.choose_pos (by omega)
  exact div_self (by exact_mod_cast hD.ne')

/-! ### Aggregation helpers -/

/-- A sum of a mapped `List.range` is the corresponding `Finset.range` sum. -/
lemma list_range_map_sum (f : ℕ → ℚ) (n : ℕ) :
    ((List.range n).map f).sum = ∑ i ∈ Finset.range n, f i := by
  induction n with
  | zero => rfl
  | succ n ih =>
    rw [List.range_succ, List.map_append, List.sum_append, Finset.sum_range_succ, ih]
    simp

/-- The running-maximum fold of src/index.js stays at 0 on a list of zeros. -/
lemma foldl_max_of_zeros : ∀ (l : List ℚ), (∀ x ∈ l, x = 0) →
    l.foldl (fun m p => if p > m then p else m) 0 = 0 := by
  intro l
  induction l with
  | nil => intro _; rfl
  | cons x xs ih =>
    intro h
    have hx : x = 0 := h x (List.mem_cons_self x xs)
    rw [List.foldl_cons, hx]
    simp only [lt_self_iff_false, if_neg, gt_iff_lt]
    exact ih fun y hy => h y (List.mem_cons_of_mem _ hy)

/-- With no payout entries for a pick level, the expected value is 0. -/
lemma totalEV_of_none (tbl : PayoutTable) (picks : ℕ)
    (h : ∀ x : ℤ, tbl picks x = none) : totalEV tbl picks = 0 := by
  rw [totalEV]
  apply List.sum_eq_zero
  intro x hx
  simp only [List.mem_map] at hx
  obtain ⟨hits, _, rfl⟩ := hx
  rw [lookupPayout, h hits]
  simp

/-- With no payout entries for a pick level, the combined win probability
accumulated by the summary loop is 0. -/
lemma combinedWinProbability_of_none (tbl : PayoutTable) (picks : ℕ)
    (h : ∀ x : ℤ, tbl picks x = none) : combinedWinProbability tbl picks = 0 := by
  rw [combinedWinProbability]
  apply List.sum_eq_zero
  intro x hx
  simp only [List.mem_map] at hx
  obtain ⟨hits, _, rfl⟩ := hx
  rw [lookupPayout, h hits]
  simp

/-- With no payout entries for a pick level, the maximum payout is 0. -/
lemma maxPayout_of_none (tbl : PayoutTable) (picks : ℕ)
    (h : ∀ x : ℤ, tbl picks x = none) : maxPayout tbl picks = 0 := by
  rw [maxPayout]
  apply foldl_max_of_zeros
  intro x hx
  simp only [List.mem_map] at hx
  obtain ⟨hits, _, rfl⟩ := hx
  rw [lookupPayout, h hits]
  rfl

/-- Expected value of the spec's worked example table: 0.25 × 3.8 = 0.95. -/
lemma totalEV_example : totalEV payoutsPick1Pays38 1 = 19 / 20 := by
  rw [totalEV]
  simp only [List.range_succ, List.range_zero, List.map_append, List.map_cons, List.map_nil,
    List.sum_append, List.sum_cons, List.sum_nil, List.nil_append, lookupPayout,
    payoutsPick1Pays38]
  norm_num [Option.getD_none, Option.getD_some, calcProb_one_one]

/-- The odds string of the picks = 10, hits = 10 outcome, evaluated: the
reciprocal probability is 8,911,711.176…, which renders as 8,911,711.18. -/
lemma formatMaxFrac2_example :
    formatMaxFrac2 (1 / ((184756 : ℚ) / 1646492110120)) = "8,911,711.18" := by
  have hfl : ⌊(1 / ((184756 : ℚ) / 1646492110120)) * 100 + 1 / 2⌋ = (891171118 : ℤ) := by
    rw [Int.floor_eq_iff]
    constructor <;> norm_num
  simp only [formatMaxFrac2]
  rw [hfl]
  decide

/-! ### Claims -/

/-- C1 (counterexample): with an empty payout table, picks = 1 has combined
win probability 0, yet the whole-game summary's "best odds to win" string is
"1 in Infinity", not the sentinel "impossible" claimed by the spec. -/
theorem C1_counterexample :
    combinedWinProbability payoutsEmpty 1 = 0 ∧
      winOddsStr payoutsEmpty 1 = "1 in Infinity" ∧
      winOddsStr payoutsEmpty 1 ≠ "impossible" := by
  have h0 : combinedWinProbability payoutsEmpty 1 = 0 :=
    combinedWinProbability_of_none payoutsEmpty 1 fun _ => rfl
  refine ⟨h0, ?_, ?_⟩
  · rw [winOddsStr, if_pos h0]
  · rw [winOddsStr, if_pos h0]
    decide

/-- C1 (amended): whenever the combined win probability of a pick level is 0,
the whole-game summary reports the best-odds figure as the string
"1 in Infinity" (JavaScript's 1/0 is Infinity and toFixed renders it); the
computation never throws, but the "impossible" sentinel is not produced
there. -/
theorem C1_best_odds_zero_win (tbl : PayoutTable) (picks : ℕ)
    (h : combinedWinProbability tbl picks = 0) :
    winOddsStr tbl picks = "1 in Infinity" ∧ winOddsStr tbl picks ≠ "impossible" := by
  rw [winOddsStr, if_pos h]
  exact ⟨rfl, by decide⟩

/-- C1 (witness): the amended statement applied to the empty payout table at
picks = 2. -/
theorem C1_witness :
    winOddsStr payoutsEmpty 2 = "1 in Infinity" ∧ winOddsStr payoutsEmpty 2 ≠ "impossible" :=
  C1_best_odds_zero_win payoutsEmpty 2
    (combinedWinProbability_of_none payoutsEmpty 2 fun _ => rfl)

/-- C2 (counterexample): binomial(80, 40) does not return the exact integer
C(80,40) = 107,507,208,733,336,176,461,620 — that value exceeds 2^53, so the
`Number(...)` conversion rounds it to 107,507,208,733,336,184,815,616. -/
theorem C2_counterexample : binomial 80 40 ≠ ((Nat.choose 80 40 : ℕ) : ℤ) := by
  rw [Nat.choose_eq_descFactorial_div_factorial]
  decide

/-- C2 (amended): binomial returns 0 when k < 0 or k > n; returns 1 when,
that guard having passed, k = 0 or k = n; for 0 ≤ k ≤ n it computes the
exact C(n,k) in BigInt arithmetic and returns its `Number(...)` conversion,
which is the exact integer C(n,k) (equivalently, its value times k!(n−k)! is
n!) whenever C(n,k) < 2^53 — in particular for every call the program makes;
and binomial(80, 10) = 1,646,492,110,120 exactly. -/
theorem C2_binomial_exact (n k : ℤ) :
    ((k < 0 ∨ n < k) → binomial n k = 0) ∧
      (¬(k < 0 ∨ n < k) → (k = 0 ∨ k = n) → binomial n k = 1) ∧
      (0 ≤ k → k ≤ n → Nat.choose n.toNat k.toNat < 2 ^ 53 →
        binomial n k = (Nat.choose n.toNat k.toNat : ℤ) ∧
          binomial n k * ((Nat.factorial k.toNat : ℤ) *
            (Nat.factorial (n.toNat - k.toNat) : ℤ)) = (Nat.factorial n.toNat : ℤ)) ∧
      binomial 80 10 = 1646492110120 := by
  refine ⟨?_, ?_, ?_, by decide⟩
  · intro h
    rw [binomial, if_pos (by omega)]
  · intro h1 h2
    rw [binomial, if_neg (by omega), if_pos h2]
  · intro h0 h1 hsmall
    have he := binomial_eq_choose n k h0 h1 hsmall
    refine ⟨he, ?_⟩
    rw [he]
    have hk : k.toNat ≤ n.toNat := by omega
    have h2 : Nat.choose n.toNat k.toNat *
        (Nat.factorial k.toNat * Nat.factorial (n.toNat - k.toNat)) =
          Nat.factorial n.toNat := by
      rw [← Nat.mul_assoc]
      exact Nat.choose_mul_factorial_mul_factorial hk
    exact_mod_cast h2

/-- C2 (witness): the clauses of the binomial contract at concrete inputs,
including the sub-2^53 exactness clause. -/
theorem C2_witness :
    binomial 5 7 = 0 ∧ binomial 5 0 = 1 ∧
      binomial 6 2 = (Nat.choose (6 : ℤ).toNat (2 : ℤ).toNat : ℤ) :=
  ⟨(C2_binomial_exact 5 7).1 (Or.inr (by decide)),
   (C2_binomial_exact 5 0).2.1 (by decide) (Or.inl rfl),
   ((C2_binomial_exact 6 2).2.2.1 (by decide) (by decide) (by decide)).1⟩

/-- C3: on the domain picks ∈ 1..10, hits ∈ 0..picks (no guard excludes any
such outcome), the probability equals
C(20,hits) · C(60,picks−hits) / C(80,picks) and lies in [0,1]; and the two
worked examples hold exactly: probability(1,0) = 0.75, probability(1,1) =
0.25. -/
theorem C3_hypergeometric_formula (picks hits : ℤ)
    (hp1 : 1 ≤ picks) (hp2 : picks ≤ 10) (hh1 : 0 ≤ hits) (hh2 : hits ≤ picks) :
    (calculateProbability picks hits =
        ((Nat.choose 20 hits.toNat * Nat.choose 60 (picks - hits).toNat : ℕ) : ℚ) /
          ((Nat.choose 80 picks.toNat : ℕ) : ℚ) ∧
      0 ≤ calculateProbability picks hits ∧ calculateProbability picks hits ≤ 1) ∧
      calculateProbability 1 0 = 3 / 4 ∧ calculateProbability 1 1 = 1 / 4 :=
  ⟨⟨calculateProbability_eq picks hits hh1 hh2 hp2,
    calcProb_nonneg picks hits hh1 hh2 hp2, calcProb_le_one picks hits hh1 hh2 hp2⟩,
   calcProb_one_zero, calcProb_one_one⟩

/-- C3 (witness): the formula and examples at picks = 2, hits = 1. -/
theorem C3_witness :
    calculateProbability 2 1 =
        ((Nat.choose 20 (1 : ℤ).toNat * Nat.choose 60 ((2 : ℤ) - 1).toNat : ℕ) : ℚ) /
          ((Nat.choose 80 (2 : ℤ).toNat : ℕ) : ℚ) ∧
      calculateProbability 1 0 = 3 / 4 :=
  ⟨((C3_hypergeometric_formula 2 1 (by norm_num) (by norm_num) (by norm_num)
      (by norm_num)).1).1,
   (C3_hypergeometric_formula 2 1 (by norm_num) (by norm_num) (by norm_num)
      (by norm_num)).2.1⟩

/-- C4: each guard condition — hits > picks, hits > 20 (drawn count), or
picks − hits > 60 (not-drawn count) — makes the probability exactly 0, for
arbitrary integer inputs. -/
theorem C4_guard_conditions (picks hits : ℤ)
    (h : hits > picks ∨ hits > 20 ∨ picks - hits > 60) :
    calculateProbability picks hits = 0 := by
  rw [calculateProbability,
    if_pos (by simp only [NUMBERS_DRAWN, NUMBERS_NOT_DRAWN, TOTAL_NUMBERS]; omega)]

/-- C4 (witness): picks = 30, hits = 25 trips the hits > 20 guard. -/
theorem C4_witness : calculateProbability 30 25 = 0 :=
  C4_guard_conditions 30 25 (Or.inr (Or.inl (by norm_num)))

/-- C5: for every picks in 1..10, the probabilities over hits = 0..picks sum
to exactly 1 — in particular the sum is within the 1e-9 floating tolerance
of 1. -/
theorem C5_probabilities_sum_to_one (picks : ℕ) (h1 : 1 ≤ picks) (h2 : picks ≤ 10) :
    (∑ hits ∈ Finset.range (picks + 1), calculateProbability picks hits) = 1 ∧
      |(∑ hits ∈ Finset.range (picks + 1), calculateProbability picks hits) - 1| <
        1 / 1000000000 := by
  have h := sum_calcProb picks h2
  exact ⟨h, by rw [h]; norm_num⟩

/-- C5 (witness): the partition identity at picks = 1. -/
theorem C5_witness :
    (∑ hits ∈ Finset.range 2, calculateProbability 1 hits) = 1 :=
  (C5_probabilities_sum_to_one 1 le_rfl (by norm_num)).1

/-- C6 (counterexample): at the picks = 10, hits = 10 probability
184756/1646492110120 the descriptor is "1 in 8,911,711.18"; the spec's
figure "1 in 89,097.68" is wrong by two orders of magnitude. -/
theorem C6_counterexample :
    probabilityToOdds ((184756 : ℚ) / 1646492110120) = "1 in 8,911,711.18" ∧
      probabilityToOdds ((184756 : ℚ) / 1646492110120) ≠ "1 in 89,097.68" := by
  have h : probabilityToOdds ((184756 : ℚ) / 1646492110120) = "1 in 8,911,711.18" := by
    rw [probabilityToOdds, if_neg (by norm_num), if_neg (by norm_num), formatMaxFrac2_example]
    decide
  refine ⟨h, ?_⟩
  rw [h]
  decide

/-- C6 (amended): probabilityToOdds returns "impossible" at probability 0,
"1 in 1" at probability 1, and otherwise "1 in X" with X = 1/p rendered with
at most two decimal places and en-US grouping; at the picks = 10, hits = 10
probability 184756/1646492110120 the descriptor is "1 in 8,911,711.18". -/
theorem C6_odds_descriptor :
    probabilityToOdds 0 = "impossible" ∧ probabilityToOdds 1 = "1 in 1" ∧
      (∀ p : ℚ, p ≠ 0 → p ≠ 1 →
        probabilityToOdds p = "1 in " ++ formatMaxFrac2 (1 / p)) ∧
      probabilityToOdds ((184756 : ℚ) / 1646492110120) = "1 in 8,911,711.18" := by
  refine ⟨?_, ?_, ?_, ?_⟩
  · rw [probabilityToOdds, if_pos rfl]
  · rw [probabilityToOdds, if_neg one_ne_zero, if_pos rfl]
  · intro p h0 h1
    rw [probabilityToOdds, if_neg h0, if_neg h1]
  · rw [probabilityToOdds, if_neg (by norm_num), if_neg (by norm_num), formatMaxFrac2_example]
    decide

/-- C6 (witness): the generic "1 in X" clause applied at probability 1/2. -/
theorem C6_witness :
    probabilityToOdds (1 / 2 : ℚ) = "1 in " ++ formatMaxFrac2 (1 / (1 / 2 : ℚ)) :=
  C6_odds_descriptor.2.2.1 (1 / 2) (by norm_num) (by norm_num)

/-- C7: for every payout table and pick count, totalEV is the sum over hits
of probability × multiplier, the house-edge percentage is (1 − totalEV)·100,
the RTP percentage is totalEV·100; and on the worked table paying 3.8× on 1
hit at picks = 1: totalEV = 0.95, house edge 5%, RTP 95%. -/
theorem C7_pick_summary (tbl : PayoutTable) (picks : ℕ) :
    (totalEV tbl picks =
        ∑ hits ∈ Finset.range (picks + 1),
          calculateProbability picks hits * lookupPayout tbl picks hits) ∧
      houseEdgePercent tbl picks = (1 - totalEV tbl picks) * 100 ∧
      rtpPercent tbl picks = totalEV tbl picks * 100 ∧
      totalEV payoutsPick1Pays38 1 = 19 / 20 ∧
      houseEdgePercent payoutsPick1Pays38 1 = 5 ∧
      rtpPercent payoutsPick1Pays38 1 = 95 := by
  refine ⟨?_, rfl, rfl, totalEV_example, ?_, ?_⟩
  · rw [totalEV]
    exact list_range_map_sum _ _
  · rw [houseEdgePercent, totalEV_example]
    norm_num
  · rw [rtpPercent, totalEV_example]
    norm_num

/-- C8: an absent payout-table entry is read as multiplier 0, not an error;
and a pick level with no entries at all has totalEV 0, RTP 0%, house edge
100%, and maximum payout 0 — the computation still succeeds. -/
theorem C8_missing_entries (tbl : PayoutTable) :
    (∀ picks hits : ℤ, tbl picks hits = none → lookupPayout tbl picks hits = 0) ∧
      ∀ picks : ℕ, (∀ hits : ℤ, tbl picks hits = none) →
        totalEV tbl picks = 0 ∧ rtpPercent tbl picks = 0 ∧
          houseEdgePercent tbl picks = 100 ∧ maxPayout tbl picks = 0 := by
  refine ⟨fun picks hits h => by rw [lookupPayout, h]; rfl, fun picks h => ?_⟩
  have h0 := totalEV_of_none tbl picks h
  refine ⟨h0, ?_, ?_, maxPayout_of_none tbl picks h⟩
  · rw [rtpPercent, h0]
    ring
  · rw [houseEdgePercent, h0]
    ring

/-- C8 (witness): the no-entries clause applied to the empty table at
picks = 3. -/
theorem C8_witness :
    totalEV payoutsEmpty 3 = 0 ∧ houseEdgePercent payoutsEmpty 3 = 100 :=
  ⟨((C8_missing_entries payoutsEmpty).2 3 fun _ => rfl).1,
   ((C8_missing_entries payoutsEmpty).2 3 fun _ => rfl).2.2.1⟩

/-- C9: binomial(n, k) = binomial(n, n−k) for all 0 ≤ k ≤ n (symmetry). -/
theorem C9_binomial_symmetry (n k : ℤ) (h0 : 0 ≤ k) (h1 : k ≤ n) :
    binomial n k = binomial n (n - k) := by
  rw [binomial_eq_round_choose n k h0 h1,
    binomial_eq_round_choose n (n - k) (by omega) (by omega)]
  have h2 : (n - k).toNat = n.toNat - k.toNat := by omega
  rw [h2, Nat.choose_symm (by omega)]

/-- C9 (witness): symmetry at n = 10, k = 3. -/
theorem C9_witness : binomial 10 3 = binomial 10 7 :=
  C9_binomial_symmetry 10 3 (by norm_num) (by norm_num)

/-- C10: for picks in 1..10 and any hits ≥ 0, the computation never divides
by zero: the denominator binomial(80, picks) is a positive integer, the
guard conditions return 0 before any division, and the result is always a
(finite) rational in [0,1]. -/
theorem C10_no_division_by_zero (picks hits : ℤ)
    (hp1 : 1 ≤ picks) (hp2 : picks ≤ 10) (hh : 0 ≤ hits) :
    0 < binomial TOTAL_NUMBERS picks ∧
      ((hits > picks ∨ hits > NUMBERS_DRAWN ∨ picks - hits > NUMBERS_NOT_DRAWN) →
        calculateProbability picks hits = 0) ∧
      0 ≤ calculateProbability picks hits ∧ calculateProbability picks hits ≤ 1 := by
  have h80 : TOTAL_NUMBERS = (80 : ℤ) := rfl
  refine ⟨?_, ?_, ?_⟩
  · rw [h80, binomial_eq_choose 80 picks (by omega) (by omega)
      (choose_small_80 picks.toNat (by omega))]
    have hc : 0 < Nat.choose (80 : ℤ).toNat picks.toNat := Nat.choose_pos (by omega)
    exact_mod_cast hc
  · intro hg
    rw [calculateProbability, if_pos hg]
  · by_cases hcase : hits ≤ picks
    · exact ⟨calcProb_nonneg picks hits hh hcase hp2, calcProb_le_one picks hits hh hcase hp2⟩
    · have h0 : calculateProbability picks hits = 0 := by
        rw [calculateProbability, if_pos (Or.inl (by omega))]
      rw [h0]
      norm_num

/-- C10 (witness): the safety facts at picks = 10, hits = 0. -/
theorem C10_witness :
    0 < binomial TOTAL_NUMBERS 10 ∧ 0 ≤ calculateProbability 10 0 :=
  ⟨(C10_no_division_by_zero 10 0 (by norm_num) (by norm_num) (by norm_num)).1,
   (C10_no_division_by_zero 10 0 (by norm_num) (by norm_num) (by norm_num)).2.2.1⟩
